import Mathlib

/-
Verification of the kibana-mcp request-dispatch and safe-execution layer
(src/kibana_mcp/server.py), shallowly embedded in Lean.

Environment variables are modelled as `Option String` (absent = none); Python
truthiness of a string value (None and "" are falsy) is the `truthy` test.
The httpx client is modelled by its observable configuration: base URL,
ordered header list, optional basic-auth pair, timeout and TLS-verify flag.
-/

namespace KibanaMcp

/-- A text content item of a result envelope (mcp.types.TextContent). -/
structure TextContent where
  type : String
  text : String
  deriving Repr, DecidableEq

/-- Environment-sourced configuration read by configure_http_client. -/
structure Env where
  kibana_url : Option String
  encoded_api_key : Option String
  kibana_username : Option String
  kibana_password : Option String
  deriving Repr, DecidableEq

/-- Python truthiness of an optional string: None and the empty string are falsy. -/
def truthy : Option String → Bool
  | none => false
  | some s => !s.isEmpty

/-- Observable configuration of the constructed httpx.AsyncClient. -/
structure ClientConfig where
  base_url : String
  headers : List (String × String)
  auth : Option (String × String)
  timeout_seconds : Nat
  verify : Bool
  deriving Repr, DecidableEq

/-- The fatal configuration failures raised by configure_http_client
(ValueError in the source; names abstracted as in the data model). -/
inductive ConfigError where
  | missingUrl
  | noCredentials
  deriving Repr, DecidableEq

/-- The whitespace characters removed by Python str.strip(). -/
def isPyWhitespace (c : Char) : Bool :=
  c == ' ' || c == '\t' || c == '\n' || c == '\r' || c == '\x0b' || c == '\x0c'

/-- Embedding of Python str.strip(): remove leading and trailing whitespace. -/
def pyStrip (s : String) : String :=
  ⟨((s.data.dropWhile isPyWhitespace).reverse.dropWhile isPyWhitespace).reverse⟩

/-- Embedding of Python str.startswith(pre). -/
def pyStartsWith (s pre : String) : Bool :=
  pre.data.isPrefixOf s.data

/-- Normalization of the API key into the Authorization header value:
`encoded_api_key if encoded_api_key.strip().startswith("ApiKey ") else
f"ApiKey \x7bencoded_api_key.strip()\x7d"` from server.py line 44. -/
def apiKeyAuthHeader (encoded_api_key : String) : String :=
  if pyStartsWith (pyStrip encoded_api_key) "ApiKey " then encoded_api_key
  else "ApiKey " ++ pyStrip encoded_api_key

/-- Embedding of configure_http_client (server.py lines 26-58): check the base
URL, pick the authentication method (API key first, then basic auth), and
build the client descriptor with fixed headers, timeout 30 and verify False. -/
def configure_http_client (env : Env) : Except ConfigError ClientConfig :=
  if truthy env.kibana_url = false then
    .error .missingUrl
  else
    let headers := [("kbn-xsrf", "true"), ("Content-Type", "application/json")]
    if truthy env.encoded_api_key then
      .ok ⟨env.kibana_url.getD "",
           headers ++ [("Authorization", apiKeyAuthHeader (env.encoded_api_key.getD ""))],
           none, 30, false⟩
    else if truthy env.kibana_username && truthy env.kibana_password then
      .ok ⟨env.kibana_url.getD "", headers,
           some (env.kibana_username.getD "", env.kibana_password.getD ""),
           30, false⟩
    else
      .error .noCredentials

/-- Whether the header list carries an Authorization entry. -/
def hasAuthorizationHeader (cfg : ClientConfig) : Bool :=
  cfg.headers.any (fun p => p.1 == "Authorization")

/-- Argument values a tool passes to its backend-call function. -/
inductive ArgVal where
  | str (s : String)
  | strList (l : List String)
  | int (n : Int)
  deriving Repr, DecidableEq

/-- Outcome of a tool handler before the backend runs: either a pre-flight
rejection already carrying its envelope, or a delegation to the safe
execution wrapper with the tool name and keyword arguments. -/
inductive ToolStep where
  | reject (envelope : List TextContent)
  | delegate (tool_name : String) (args : List (String × ArgVal))
  deriving Repr, DecidableEq

/-- Failure classes a backend-call function can raise (spec section 6:
connectivity failure, timeout, backend-rejected non-2xx, malformed response;
plus an unexpected internal fault, spec section 4.2). -/
inductive ToolFailure where
  | connectivity (detail : String)
  | timeout (detail : String)
  | backendRejected (statusCode : Nat) (detail : String)
  | malformedResponse (detail : String)
  | internalFault (detail : String)
  deriving Repr, DecidableEq

/-- Result of running a backend-call function: a success description string
or a raised failure. -/
inductive BackendOutcome where
  | success (description : String)
  | failure (e : ToolFailure)
  deriving Repr, DecidableEq

/-- Distinguishable message tag for each failure class. -/
def failureClassTag : ToolFailure → String
  | .connectivity _ => "Connectivity error"
  | .timeout _ => "Timeout error"
  | .backendRejected code _ => "Backend rejected request (status " ++ toString code ++ ")"
  | .malformedResponse _ => "Malformed backend response"
  | .internalFault _ => "Unexpected error"

/-- Detail string carried by a failure. -/
def failureDetail : ToolFailure → String
  | .connectivity d => d
  | .timeout d => d
  | .backendRejected _ d => d
  | .malformedResponse d => d
  | .internalFault d => d

/-- Diagnostic text produced by the wrapper for a failed tool call: it names
the tool and gives a class-tagged diagnostic. -/
def errorEnvelopeText (tool_name : String) (e : ToolFailure) : String :=
  "Error executing tool " ++ tool_name ++ ": " ++ failureClassTag e ++ ": " ++ failureDetail e

/-- Modelled from the spec: execute_tool_safely is imported from
kibana_mcp.tools, whose source is not part of this snapshot. Per spec
section 4.2, it invokes the backend-call function with the client and
arguments; a completed call is wrapped as a single-item text envelope, and
any raised failure is caught and converted into a single-item text envelope
whose text identifies the tool name and a concise diagnostic; the failure is
never re-raised (the function is total and always returns an envelope). -/
def execute_tool_safely (tool_name : String) (outcome : BackendOutcome) : List TextContent :=
  match outcome with
  | .success description => [⟨"text", description⟩]
  | .failure e => [⟨"text", errorEnvelopeText tool_name e⟩]

/-- Embedding of the tag_alert handler (server.py lines 87-97): no local
validation, delegates entirely to the safe wrapper. -/
def tag_alert (alert_id : String) (tags : List String) : ToolStep :=
  .delegate "tag_alert" [("alert_id", .str alert_id), ("tags_to_add", .strList tags)]

/-- The valid alert statuses (server.py line 103). -/
def valid_statuses : List String := ["open", "acknowledged", "closed"]

/-- Python repr of a string, as rendered inside the f-string error message. -/
def pyStrRepr (s : String) : String := "\x27" ++ s ++ "\x27"

/-- Python repr of a list of strings, as rendered by the f-string. -/
def pyListRepr (l : List String) : String :=
  "[" ++ String.intercalate ", " (l.map pyStrRepr) ++ "]"

/-- Embedding of the adjust_alert_status handler (server.py lines 99-116):
pre-flight validation of new_status against valid_statuses; on violation,
short-circuit with a single-item text envelope; otherwise delegate to the
safe wrapper. -/
def adjust_alert_status (alert_id new_status : String) : ToolStep :=
  if new_status ∉ valid_statuses then
    .reject [⟨"text", "Invalid status " ++ pyStrRepr new_status ++ ". Must be one of "
                        ++ pyListRepr valid_statuses ++ "."⟩]
  else
    .delegate "adjust_alert_status" [("alert_id", .str alert_id), ("new_status", .str new_status)]

/-- Embedding of the get_alerts handler (server.py lines 118-130): defaults
limit to 20 and search_text to "*", no local validation, delegates to the
safe wrapper. -/
def get_alerts (limit : Int := 20) (search_text : String := "*") : ToolStep :=
  .delegate "get_alerts" [("limit", .int limit), ("search_text", .str search_text)]

/-- Run a tool step against a backend outcome: a rejection returns its
envelope without consulting the backend; a delegation goes through the safe
execution wrapper. -/
def runTool (step : ToolStep) (outcome : BackendOutcome) : List TextContent :=
  match step with
  | .reject envelope => envelope
  | .delegate tool_name _ => execute_tool_safely tool_name outcome

/-- Observable events of the run_server control flow. -/
inductive Event where
  | configured
  | runEntered
  | runExited
  | runRaised
  | clientClosed
  deriving Repr, DecidableEq

/-- Embedding of run_server (server.py lines 132-155) as an event trace.
The client starts unset; configure_http_client may raise (caught by the
except block, leaving the client unset so the finally block skips the
close); on success the serving loop mcp.run() is entered, and whether it
returns normally or raises, the finally block closes the client exactly
once. runRaises says whether mcp.run() raises. -/
def run_server (env : Env) (runRaises : Bool) : List Event :=
  match configure_http_client env with
  | .error _ => []
  | .ok _ =>
    .configured :: .runEntered ::
      (if runRaises then [Event.runRaised, Event.clientClosed]
       else [Event.runExited, Event.clientClosed])

/-- Helper: with a truthy base URL and a truthy API key, resolution yields the
header-auth client. -/
theorem configure_ok_apiKey (env : Env) (hu : truthy env.kibana_url = true)
    (ha : truthy env.encoded_api_key = true) :
    configure_http_client env =
      .ok ⟨env.kibana_url.getD "",
           [("kbn-xsrf", "true"), ("Content-Type", "application/json"),
            ("Authorization", apiKeyAuthHeader (env.encoded_api_key.getD ""))],
           none, 30, false⟩ := by
  simp [configure_http_client, hu, ha]

/-- Helper: with a truthy base URL, no API key and truthy username and
password, resolution yields the basic-auth client. -/
theorem configure_ok_basic (env : Env) (hu : truthy env.kibana_url = true)
    (ha : truthy env.encoded_api_key = false)
    (hn : truthy env.kibana_username = true) (hp : truthy env.kibana_password = true) :
    configure_http_client env =
      .ok ⟨env.kibana_url.getD "",
           [("kbn-xsrf", "true"), ("Content-Type", "application/json")],
           some (env.kibana_username.getD "", env.kibana_password.getD ""),
           30, false⟩ := by
  simp [configure_http_client, hu, ha, hn, hp]

/-- Helper: with a truthy base URL but no usable credentials, resolution
fails with the no-credentials error. -/
theorem configure_err_noCreds (env : Env) (hu : truthy env.kibana_url = true)
    (ha : truthy env.encoded_api_key = false)
    (hbp : (truthy env.kibana_username && truthy env.kibana_password) = false) :
    configure_http_client env = .error .noCredentials := by
  simp [configure_http_client, hu, ha, hbp]

/-- C6: if the base URL configuration value is absent or empty, credential
resolution fails with the missing-base-URL configuration error, whatever the
credential values are, so no authentication selection or client construction
can have taken place. -/
theorem missing_base_url_fatal (url : Option String) (hu : truthy url = false)
    (ak user pass : Option String) :
    configure_http_client ⟨url, ak, user, pass⟩ = .error .missingUrl := by
  simp [configure_http_client, hu]

/-- Witness for missing_base_url_fatal at an empty base URL. -/
theorem missing_base_url_fatal_witness :
    truthy (some "") = false ∧
    configure_http_client ⟨some "", some "key", some "user", some "pass"⟩ =
      .error .missingUrl :=
  ⟨by decide,
   missing_base_url_fatal (some "") (by decide) (some "key") (some "user") (some "pass")⟩

/-- C2: with a base URL present, the four credential configurations resolve
as documented: a truthy API key (alone, or together with a basic pair, API
key taking precedence) yields a client with an Authorization header and no
basic-auth pair; a basic pair without an API key yields a client with the
basic-auth pair and no Authorization header; no usable credentials yield the
fatal no-credentials error and no client. -/
theorem credential_resolution_cases (env : Env) (hu : truthy env.kibana_url = true) :
    (truthy env.encoded_api_key = true →
       ∃ cfg, configure_http_client env = .ok cfg ∧
         hasAuthorizationHeader cfg = true ∧ cfg.auth = none) ∧
    (truthy env.encoded_api_key = false →
     truthy env.kibana_username = true → truthy env.kibana_password = true →
       ∃ cfg, configure_http_client env = .ok cfg ∧
         hasAuthorizationHeader cfg = false ∧
         cfg.auth = some (env.kibana_username.getD "", env.kibana_password.getD "")) ∧
    (truthy env.encoded_api_key = false →
     (truthy env.kibana_username && truthy env.kibana_password) = false →
       configure_http_client env = .error .noCredentials) := by
  refine ⟨fun ha => ⟨_, configure_ok_apiKey env hu ha, ?_, rfl⟩,
          fun ha hn hp => ⟨_, configure_ok_basic env hu ha hn hp, ?_, rfl⟩,
          fun ha hbp => configure_err_noCreds env hu ha hbp⟩
  · simp [hasAuthorizationHeader]
  · simp [hasAuthorizationHeader]

/-- Witness for credential_resolution_cases, instantiated with both an API
key and a basic pair present: the API key wins. -/
theorem credential_resolution_cases_witness :
    truthy (some "http://kibana:5601") = true ∧ truthy (some "key") = true ∧
    (∃ cfg,
      configure_http_client ⟨some "http://kibana:5601", some "key", some "user", some "pass"⟩ =
        .ok cfg ∧ hasAuthorizationHeader cfg = true ∧ cfg.auth = none) :=
  ⟨by decide, by decide,
   (credential_resolution_cases
      ⟨some "http://kibana:5601", some "key", some "user", some "pass"⟩ (by decide)).1 (by decide)⟩

/-- C4: for a non-empty API key, the Authorization header value is the
caller-supplied string verbatim when its trimmed form already starts with
the ApiKey scheme, and otherwise the scheme token, one space and the
trimmed key; and the resolved client carries exactly that header value. -/
theorem api_key_normalization (k : String) (hk : k ≠ "")
    (url user pass : Option String) (hu : truthy url = true) :
    (pyStartsWith (pyStrip k) "ApiKey " = true → apiKeyAuthHeader k = k) ∧
    (pyStartsWith (pyStrip k) "ApiKey " = false → apiKeyAuthHeader k = "ApiKey " ++ pyStrip k) ∧
    ∃ cfg, configure_http_client ⟨url, some k, user, pass⟩ = .ok cfg ∧
      ("Authorization", apiKeyAuthHeader k) ∈ cfg.headers := by
  have hke : k.isEmpty = false := by
    cases h : k.isEmpty
    · rfl
    · exact absurd ((String.isEmpty_iff k).mp h) hk
  have ha : truthy (some k) = true := by simp [truthy, hke]
  refine ⟨fun h => by simp [apiKeyAuthHeader, h],
          fun h => by simp [apiKeyAuthHeader, h],
          ⟨_, configure_ok_apiKey ⟨url, some k, user, pass⟩ hu ha, ?_⟩⟩
  simp

/-- Witness for api_key_normalization at a key without the scheme. -/
theorem api_key_normalization_witness :
    ("mykey" : String) ≠ "" ∧ truthy (some "http://kb") = true ∧
    ((pyStartsWith (pyStrip "mykey") "ApiKey " = true → apiKeyAuthHeader "mykey" = "mykey") ∧
     (pyStartsWith (pyStrip "mykey") "ApiKey " = false →
        apiKeyAuthHeader "mykey" = "ApiKey " ++ pyStrip "mykey") ∧
     ∃ cfg, configure_http_client ⟨some "http://kb", some "mykey", none, none⟩ = .ok cfg ∧
       ("Authorization", apiKeyAuthHeader "mykey") ∈ cfg.headers) :=
  ⟨by decide, by decide,
   api_key_normalization "mykey" (by decide) (some "http://kb") none none (by decide)⟩

/-- C7: every successfully resolved client carries the anti-forgery header
and the JSON content-type header, whichever authentication method was
selected. -/
theorem fixed_headers_always_present (env : Env) (cfg : ClientConfig)
    (h : configure_http_client env = .ok cfg) :
    ("kbn-xsrf", "true") ∈ cfg.headers ∧
    ("Content-Type", "application/json") ∈ cfg.headers := by
  unfold configure_http_client at h
  split at h
  · simp at h
  · split at h
    · injection h with h
      subst h
      exact ⟨by simp, by simp⟩
    · split at h
      · injection h with h
        subst h
        exact ⟨by simp, by simp⟩
      · simp at h

/-- Witness for fixed_headers_always_present at an API-key client. -/
theorem fixed_headers_always_present_witness :
    configure_http_client ⟨some "http://kb", some "k", none, none⟩ =
      .ok ⟨"http://kb",
           [("kbn-xsrf", "true"), ("Content-Type", "application/json"),
            ("Authorization", "ApiKey k")],
           none, 30, false⟩ ∧
    (("kbn-xsrf", "true") ∈
       [("kbn-xsrf", "true"), ("Content-Type", "application/json"),
        ("Authorization", "ApiKey k")] ∧
     ("Content-Type", "application/json") ∈
       [("kbn-xsrf", "true"), ("Content-Type", "application/json"),
        ("Authorization", "ApiKey k")]) :=
  ⟨rfl, fixed_headers_always_present ⟨some "http://kb", some "k", none, none⟩ _ rfl⟩

/-- C10: every successfully resolved client disables TLS certificate
verification. -/
theorem tls_verification_disabled (env : Env) (cfg : ClientConfig)
    (h : configure_http_client env = .ok cfg) : cfg.verify = false := by
  unfold configure_http_client at h
  split at h
  · simp at h
  · split at h
    · injection h with h
      subst h
      rfl
    · split at h
      · injection h with h
        subst h
        rfl
      · simp at h

/-- Witness for tls_verification_disabled at a basic-auth client. -/
theorem tls_verification_disabled_witness :
    configure_http_client ⟨some "http://kb", none, some "user", some "pass"⟩ =
      .ok ⟨"http://kb",
           [("kbn-xsrf", "true"), ("Content-Type", "application/json")],
           some ("user", "pass"), 30, false⟩ ∧
    (⟨"http://kb",
      [("kbn-xsrf", "true"), ("Content-Type", "application/json")],
      some ("user", "pass"), 30, false⟩ : ClientConfig).verify = false :=
  ⟨rfl, tls_verification_disabled ⟨some "http://kb", none, some "user", some "pass"⟩ _ rfl⟩

/-- C9: credential presence is truthiness: an empty-string API key behaves
exactly like an absent one, an empty-string username or password behaves
exactly like an absent one, and all-empty credentials with a present base
URL end in the no-credentials error rather than an authenticated client. -/
theorem empty_string_credentials_absent (env : Env) :
    configure_http_client { env with encoded_api_key := some "" } =
      configure_http_client { env with encoded_api_key := none } ∧
    configure_http_client { env with kibana_username := some "" } =
      configure_http_client { env with kibana_username := none } ∧
    configure_http_client { env with kibana_password := some "" } =
      configure_http_client { env with kibana_password := none } ∧
    (truthy env.kibana_url = true →
      configure_http_client
        { env with encoded_api_key := some "", kibana_username := some "",
                   kibana_password := some "" } = .error .noCredentials) := by
  have hf : truthy (some "") = false := rfl
  have hn : truthy (none : Option String) = false := rfl
  refine ⟨?_, ?_, ?_, fun hu => ?_⟩ <;>
    simp [configure_http_client, hf, hn, *]

/-- Witness for empty_string_credentials_absent with every credential the
empty string. -/
theorem empty_string_credentials_absent_witness :
    truthy (some "http://kb") = true ∧
    configure_http_client ⟨some "http://kb", some "", some "", some ""⟩ =
      .error .noCredentials :=
  ⟨by decide,
   (empty_string_credentials_absent ⟨some "http://kb", none, none, none⟩).2.2.2 (by decide)⟩

/-- C8: get_alerts invoked without explicit arguments delegates with limit
20 and search text "*", and with any arguments it always delegates with
exactly those arguments, performing no local validation. -/
theorem get_alerts_defaults :
    (get_alerts : ToolStep) =
      .delegate "get_alerts" [("limit", .int 20), ("search_text", .str "*")] ∧
    ∀ (limit : Int) (search_text : String),
      get_alerts limit search_text =
        .delegate "get_alerts" [("limit", .int limit), ("search_text", .str search_text)] :=
  ⟨rfl, fun _ _ => rfl⟩

/-- C3: adjust_alert_status with a status outside the valid set rejects
pre-flight: it returns the single-item text envelope naming the rejected
value and the valid set, and whatever the backend would have answered, the
run result is that same envelope, so neither the wrapper nor the backend is
consulted; with a valid status it delegates to the wrapper. -/
theorem adjust_status_preflight (alert_id new_status : String) :
    (new_status ∉ valid_statuses →
       adjust_alert_status alert_id new_status =
         .reject [⟨"text", "Invalid status " ++ pyStrRepr new_status ++
                     ". Must be one of " ++ pyListRepr valid_statuses ++ "."⟩] ∧
       ∀ outcome, runTool (adjust_alert_status alert_id new_status) outcome =
         [⟨"text", "Invalid status " ++ pyStrRepr new_status ++
             ". Must be one of " ++ pyListRepr valid_statuses ++ "."⟩]) ∧
    (new_status ∈ valid_statuses →
       adjust_alert_status alert_id new_status =
         .delegate "adjust_alert_status"
           [("alert_id", .str alert_id), ("new_status", .str new_status)]) := by
  constructor
  · intro h
    refine ⟨by simp [adjust_alert_status, h], fun outcome => ?_⟩
    simp [adjust_alert_status, h, runTool]
  · intro h
    simp [adjust_alert_status, h]

/-- Witness for adjust_status_preflight at the invalid status value bogus. -/
theorem adjust_status_preflight_witness :
    "bogus" ∉ valid_statuses ∧
    adjust_alert_status "a1" "bogus" =
      .reject [⟨"text", "Invalid status " ++ pyStrRepr "bogus" ++
                  ". Must be one of " ++ pyListRepr valid_statuses ++ "."⟩] :=
  ⟨by decide, ((adjust_status_preflight "a1" "bogus").1 (by decide)).1⟩

/-- C1: for each of the three tools, every failure raised by the backend-call
function is absorbed by the safe execution wrapper into a single-item text
envelope whose text names the tool and a class-tagged diagnostic; the run
function is total, so no failure propagates past the wrapper boundary. -/
theorem tool_failures_contained (alert_id : String) (tags : List String)
    (new_status : String) (limit : Int) (search_text : String) (e : ToolFailure)
    (hst : new_status ∈ valid_statuses) :
    runTool (tag_alert alert_id tags) (.failure e) =
      [⟨"text", errorEnvelopeText "tag_alert" e⟩] ∧
    runTool (adjust_alert_status alert_id new_status) (.failure e) =
      [⟨"text", errorEnvelopeText "adjust_alert_status" e⟩] ∧
    runTool (get_alerts limit search_text) (.failure e) =
      [⟨"text", errorEnvelopeText "get_alerts" e⟩] ∧
    ∀ name, ∃ rest, errorEnvelopeText name e = "Error executing tool " ++ name ++ rest := by
  refine ⟨rfl, ?_, rfl, fun name => ?_⟩
  · simp [adjust_alert_status, hst, runTool, execute_tool_safely]
  · exact ⟨": " ++ failureClassTag e ++ ": " ++ failureDetail e,
      by simp [errorEnvelopeText, String.append_assoc]⟩

/-- Witness for tool_failures_contained at a timeout failure. -/
theorem tool_failures_contained_witness :
    "open" ∈ valid_statuses ∧
    runTool (tag_alert "a1" ["x", "y"]) (.failure (.timeout "backend timed out")) =
      [⟨"text", "Error executing tool tag_alert: Timeout error: backend timed out"⟩] :=
  ⟨by decide,
   (tool_failures_contained "a1" ["x", "y"] "open" 20 "*"
      (.timeout "backend timed out") (by decide)).1⟩

/-- C5: if credential resolution fails at startup, the trace of run_server
is empty, so the serving loop is never entered and no request is served;
if resolution succeeds, the client is closed exactly once, after the
serving loop, on both normal and raising termination of the loop. -/
theorem run_server_lifecycle (env : Env) (runRaises : Bool) :
    (∀ err, configure_http_client env = .error err →
       run_server env runRaises = [] ∧ Event.runEntered ∉ run_server env runRaises) ∧
    (∀ cfg, configure_http_client env = .ok cfg →
       run_server env runRaises =
         [.configured, .runEntered,
          if runRaises then .runRaised else .runExited, .clientClosed] ∧
       (run_server env runRaises).count .clientClosed = 1) := by
  constructor
  · intro err herr
    simp [run_server, herr]
  · intro cfg hok
    cases runRaises <;> simp [run_server, hok, List.count]

/-- Witness for run_server_lifecycle: the loop raising after a successful
resolution still closes the client exactly once. -/
theorem run_server_lifecycle_witness :
    configure_http_client ⟨some "http://kb", some "key", none, none⟩ =
      .ok ⟨"http://kb",
           [("kbn-xsrf", "true"), ("Content-Type", "application/json"),
            ("Authorization", "ApiKey key")],
           none, 30, false⟩ ∧
    (run_server ⟨some "http://kb", some "key", none, none⟩ true =
       [.configured, .runEntered,
        if true then Event.runRaised else Event.runExited, .clientClosed] ∧
     (run_server ⟨some "http://kb", some "key", none, none⟩ true).count .clientClosed = 1) :=
  ⟨rfl,
   (run_server_lifecycle ⟨some "http://kb", some "key", none, none⟩ true).2 _ rfl⟩

end KibanaMcp
